import Mathlib

/-!
Verification of the BLE GATT environmental-sensor client
(`src/ble_client.c`, with callers in `src/main.c` and `src/http_server.c`).

The development shallowly embeds the parts of `ble_client.c` that the
specification talks about: the payload decoders inside `notify_cb`, the
`ble_sensor_state` store with its accessors, and the state-store /
timeout-scheduling effects of the lifecycle callbacks
(`ble_client_start`, `reconnect_cb`, `att_disconnect_cb`, `ready_cb`,
`notify_cb`).  Machine integers are modelled as `Nat`/`Int`; bytes as
`Fin 256`; the fixed-point physical values as rationals.
-/

namespace BleGatt

/-- Constant from `#define UUID_ESS_SERVICE 0x181A` in `ble_client.c`. -/
def UUID_ESS_SERVICE : Nat := 0x181A

/-- Constant from `#define UUID_TEMPERATURE 0x2A6E` in `ble_client.c`. -/
def UUID_TEMPERATURE : Nat := 0x2A6E

/-- Constant from `#define UUID_PRESSURE 0x2A6D` in `ble_client.c`. -/
def UUID_PRESSURE : Nat := 0x2A6D

/-- Constant from `#define UUID_HUMIDITY 0x2A6F` in `ble_client.c`. -/
def UUID_HUMIDITY : Nat := 0x2A6F

/-- A raw payload byte. -/
abbrev Byte := Fin 256

/-- Little-endian composition of two bytes into a 16-bit unsigned value,
as performed by `le16toh` on the first two payload bytes. -/
def uint16_le (b0 b1 : Byte) : Nat := b0.val + 256 * b1.val

/-- Little-endian composition of four bytes into a 32-bit unsigned value,
as performed by `le32toh` on the first four payload bytes. -/
def uint32_le (b0 b1 b2 b3 : Byte) : Nat :=
  b0.val + 256 * b1.val + 65536 * b2.val + 16777216 * b3.val

/-- Reinterpretation of a 16-bit pattern as a signed `int16_t`
(two's complement), as performed by `*(int16_t*)value` in `notify_cb`. -/
def toInt16 (n : Nat) : Int :=
  if n % 65536 < 32768 then ((n % 65536 : Nat) : Int)
  else ((n % 65536 : Nat) : Int) - 65536

/-- The logical sensor kinds distinguished by `notify_cb`. -/
inductive SensorKind where
  | temperature
  | pressure
  | humidity
deriving DecidableEq, Repr

/-- Embeds `struct ble_sensor_state` (without the pthread mutex, which only
guards the accesses and carries no data).  `float` fields are modelled
as rationals; no floating-point arithmetic is ever performed on them in
the reachable code. -/
structure ble_sensor_state where
  connected : Bool
  has_temp : Bool
  has_press : Bool
  has_humid : Bool
  temperature : ℚ
  pressure : ℚ
  humidity : ℚ
deriving DecidableEq, Repr

/-- The static initializer of `g_state` in `ble_client.c`: everything
false / zero. -/
def g_state_init : ble_sensor_state :=
  { connected := false
    has_temp := false
    has_press := false
    has_humid := false
    temperature := 0
    pressure := 0
    humidity := 0 }

/-- The temperature branch of `notify_cb` (lines 155–159):
`if (length < sizeof(int16_t)) return;` then
`int16_t raw = le16toh(*(int16_t*)value);` with physical value
`raw / 100.0`.  Rejection is `none`. -/
def decode_temperature (value : List Byte) : Option ℚ :=
  match value with
  | b0 :: b1 :: _ => some ((toInt16 (uint16_le b0 b1) : ℚ) / 100)
  | _ => none

/-- The pressure branch of `notify_cb` (lines 161–165):
`if (length < sizeof(uint32_t)) return;` then
`uint32_t raw = le32toh(*(uint32_t*)value);` with physical value
`raw / 100.0`. -/
def decode_pressure (value : List Byte) : Option ℚ :=
  match value with
  | b0 :: b1 :: b2 :: b3 :: _ => some ((uint32_le b0 b1 b2 b3 : ℚ) / 100)
  | _ => none

/-- The humidity branch of `notify_cb` (lines 167–171):
`if (length < sizeof(uint16_t)) return;` then
`uint16_t raw = le16toh(*(uint16_t*)value);` with physical value
`raw / 100.0`. -/
def decode_humidity (value : List Byte) : Option ℚ :=
  match value with
  | b0 :: b1 :: _ => some ((uint16_le b0 b1 : ℚ) / 100)
  | _ => none

/-- Embeds `notify_cb` (lines 128–173).  The GATT-db lookup
(`gatt_db_get_attribute` + `gatt_db_attribute_get_char_data`) is an
external collaborator, modelled as a partial map from value-handle to
the characteristic's 16-bit UUID (`none` when the attribute is absent or
has no characteristic data).  The function classifies the handle,
decodes the payload and — in the C source — only `printf`s the decoded
value; the returned list of `(kind, value)` pairs models the lines
printed.  Note that the C body never touches `g_state`: the returned
store is the input store in every branch, exactly as in the source. -/
def notify_cb (char_uuid_of_handle : Nat → Option Nat) (value_handle : Nat)
    (value : List Byte) (s : ble_sensor_state) :
    ble_sensor_state × List (SensorKind × ℚ) :=
  match char_uuid_of_handle value_handle with
  | none => (s, [])
  | some uuid =>
    if uuid = UUID_TEMPERATURE then
      match decode_temperature value with
      | some v => (s, [(SensorKind.temperature, v)])
      | none => (s, [])
    else if uuid = UUID_PRESSURE then
      match decode_pressure value with
      | some v => (s, [(SensorKind.pressure, v)])
      | none => (s, [])
    else if uuid = UUID_HUMIDITY then
      match decode_humidity value with
      | some v => (s, [(SensorKind.humidity, v)])
      | none => (s, [])
    else (s, [])

/-- Embeds `ble_get_temperature` (lines 597–607).  The caller's out-location is
threaded explicitly: the C function writes `*out` only when
`g_state.has_temp` holds, otherwise the location keeps its previous
contents. -/
def ble_get_temperature (s : ble_sensor_state) (out : ℚ) : Bool × ℚ :=
  let ok := s.has_temp
  (ok, if ok then s.temperature else out)

/-- Embeds `ble_get_pressure` (lines 609–619). -/
def ble_get_pressure (s : ble_sensor_state) (out : ℚ) : Bool × ℚ :=
  let ok := s.has_press
  (ok, if ok then s.pressure else out)

/-- Embeds `ble_get_humidity` (lines 621–631). -/
def ble_get_humidity (s : ble_sensor_state) (out : ℚ) : Bool × ℚ :=
  let ok := s.has_humid
  (ok, if ok then s.humidity else out)

/-- Embeds `ble_is_connected` (lines 633–641). -/
def ble_is_connected (s : ble_sensor_state) : Bool := s.connected

/-!
## Session lifecycle

The reactor-side state relevant to the claims: the shared store, whether
a `struct client` is currently allocated, the delays (in ms) of the
`mainloop_add_timeout(…, reconnect_cb, …)` calls issued so far, and a
history flag recording whether `ready_cb` has reported a successful
GATT discovery (the spec's notion of the `Ready` state).  The
`discovery_complete` field is a ghost observation: no C code reads it;
it only lets theorems talk about where in the lifecycle an execution is.
-/

structure SysState where
  store : ble_sensor_state
  has_client : Bool
  scheduled_reconnect_delays : List Nat
  discovery_complete : Bool
deriving DecidableEq, Repr

/-- State at program start: `g_state` statically initialized, no client,
no timeouts scheduled, no discovery completed. -/
def init_sys : SysState :=
  { store := g_state_init
    has_client := false
    scheduled_reconnect_delays := []
    discovery_complete := false }

/-- Embeds `ble_client_start` (lines 563–591).  `connect_ok` is the outcome of
the external `l2cap_le_att_connect`, `create_ok` the outcome of
`client_create` (allocation plus ATT/GATT setup, both external
collaborators).  On either failure a reconnect is scheduled after
2000 ms and `false` is returned; on success `g_state.connected` is set
to `true` under the lock and `true` is returned.  Discovery has not yet
run at this point — `bt_gatt_client_ready_register` only registers
`ready_cb` for later. -/
def ble_client_start (connect_ok create_ok : Bool) (s : SysState) :
    SysState × Bool :=
  if connect_ok = false then
    ({ s with scheduled_reconnect_delays :=
        s.scheduled_reconnect_delays ++ [2000] }, false)
  else if create_ok = false then
    ({ s with scheduled_reconnect_delays :=
        s.scheduled_reconnect_delays ++ [2000] }, false)
  else
    ({ s with has_client := true
              store := { s.store with connected := true } }, true)

/-- Embeds `reconnect_cb` (lines 186–201).  On connect failure it schedules
itself again after 2000 ms; on success it calls `client_create` (whose
result is ignored by the C code — in particular `g_state` is not touched
on this path, successful or not). -/
def reconnect_cb (connect_ok create_ok : Bool) (s : SysState) : SysState :=
  if connect_ok = false then
    { s with scheduled_reconnect_delays :=
        s.scheduled_reconnect_delays ++ [2000] }
  else if create_ok = true then
    { s with has_client := true }
  else
    s

/-- Embeds `att_disconnect_cb` (lines 203–211): destroy the client and schedule
`reconnect_cb` after 1000 ms.  The C body performs no access to
`g_state` whatsoever. -/
def att_disconnect_cb (s : SysState) : SysState :=
  { s with has_client := false
           scheduled_reconnect_delays :=
             s.scheduled_reconnect_delays ++ [1000] }

/-- Embeds `ready_cb` (lines 384–395): on discovery failure it only logs; on
success it walks the services registering notifications (external
effects).  Neither branch touches `g_state`.  The ghost
`discovery_complete` flag records a successful completion. -/
def ready_cb (success : Bool) (s : SysState) : SysState :=
  if success = true then { s with discovery_complete := true } else s

/-- The reactor events that can reach the code embedded here. -/
inductive Event where
  | start (connect_ok create_ok : Bool)
  | reconnect (connect_ok create_ok : Bool)
  | disconnect
  | ready (success : Bool)
  | notify (char_uuid_of_handle : Nat → Option Nat) (value_handle : Nat)
      (value : List Byte)

/-- One reactor callback invocation. -/
def step (s : SysState) : Event → SysState
  | Event.start c k => (ble_client_start c k s).1
  | Event.reconnect c k => reconnect_cb c k s
  | Event.disconnect => att_disconnect_cb s
  | Event.ready ok => ready_cb ok s
  | Event.notify f h v => { s with store := (notify_cb f h v s.store).1 }

/-- States reachable from program start under any sequence of reactor
events. -/
inductive Reachable : SysState → Prop
  | init : Reachable init_sys
  | next {s : SysState} (e : Event) : Reachable s → Reachable (step s e)

/-!
## Spec-side definitions

Used only to state refinement-style decoder claims against the spec's
own wording (§4.1 / §8 of the specification).
-/

/-- Spec wording: «interpret \[the first two bytes\] as a signed
little-endian 16-bit integer». -/
def int16_le_spec (b0 b1 : Byte) : Int :=
  let u : Nat := b0.val + 256 * b1.val
  if u < 32768 then (u : Int) else (u : Int) - 65536

/-- Spec wording: «interpret \[the first four bytes\] as an unsigned
little-endian 32-bit integer». -/
def uint32_le_spec (b0 b1 b2 b3 : Byte) : Nat :=
  b0.val + 256 * (b1.val + 256 * (b2.val + 256 * b3.val))

/-- Spec wording: «interpret \[the first two bytes\] as an unsigned
little-endian 16-bit integer». -/
def uint16_le_spec (b0 b1 : Byte) : Nat := b0.val + 256 * b1.val

/-- A handle map that resolves handle 42 to the temperature
characteristic UUID and nothing else; used as concrete test data. -/
def temp_lookup : Nat → Option Nat :=
  fun h => if h = 42 then some UUID_TEMPERATURE else none

/-- The system state after a successful `ble_client_start` from program
start: transport connected, client created, `connected = true`, but no
discovery yet. -/
def sys_after_start : SysState := (ble_client_start true true init_sys).1

/-!
## Helper lemmas
-/

/-- Key structural fact of the C source: no branch of `notify_cb` writes
to `g_state` — the function only classifies, decodes and prints. -/
theorem notify_cb_fst (f : Nat → Option Nat) (h : Nat) (v : List Byte)
    (s : ble_sensor_state) : (notify_cb f h v s).1 = s := by
  unfold notify_cb
  cases f h with
  | none => rfl
  | some uuid =>
    dsimp only
    repeat' split
    all_goals rfl

/-- No reactor event changes any of the three observed-flags: nothing in
`ble_client.c` ever assigns `has_temp`, `has_press` or `has_humid`. -/
theorem step_preserves_flags (s : SysState) (e : Event) :
    (step s e).store.has_temp = s.store.has_temp ∧
    (step s e).store.has_press = s.store.has_press ∧
    (step s e).store.has_humid = s.store.has_humid := by
  cases e with
  | start c k => cases c <;> cases k <;> exact ⟨rfl, rfl, rfl⟩
  | reconnect c k => cases c <;> cases k <;> exact ⟨rfl, rfl, rfl⟩
  | disconnect => exact ⟨rfl, rfl, rfl⟩
  | ready ok => cases ok <;> exact ⟨rfl, rfl, rfl⟩
  | notify f h v =>
    have hn := notify_cb_fst f h v s.store
    exact ⟨by show ((notify_cb f h v s.store).1).has_temp = _; rw [hn],
           by show ((notify_cb f h v s.store).1).has_press = _; rw [hn],
           by show ((notify_cb f h v s.store).1).has_humid = _; rw [hn]⟩

/-- In every reachable system state the three observed-flags are false:
they start false and no event ever sets them. -/
theorem reachable_flags_false {s : SysState} (hs : Reachable s) :
    s.store.has_temp = false ∧ s.store.has_press = false ∧
      s.store.has_humid = false := by
  induction hs with
  | init => exact ⟨rfl, rfl, rfl⟩
  | @next t e _ ih =>
    have hp := step_preserves_flags t e
    exact ⟨hp.1.trans ih.1, hp.2.1.trans ih.2.1, hp.2.2.trans ih.2.2⟩

/-- The source-level `int16` reinterpretation agrees with the spec's
«signed little-endian 16-bit integer» reading on two-byte inputs. -/
theorem toInt16_uint16_le (b0 b1 : Byte) :
    toInt16 (uint16_le b0 b1) = int16_le_spec b0 b1 := by
  have h0 := b0.isLt
  have h1 := b1.isLt
  unfold toInt16 uint16_le int16_le_spec
  have hlt : b0.val + 256 * b1.val < 65536 := by omega
  rw [Nat.mod_eq_of_lt hlt]

/-- The source-level 32-bit little-endian composition agrees with the
spec's Horner-form reading. -/
theorem uint32_le_eq_spec (b0 b1 b2 b3 : Byte) :
    uint32_le b0 b1 b2 b3 = uint32_le_spec b0 b1 b2 b3 := by
  unfold uint32_le uint32_le_spec
  ring

/-!
## Claims
-/

/-- C1 — the claim fails and the code contradicts its own data model: a
notification whose handle resolves to the temperature characteristic and
whose payload `[0xE8, 0x08]` meets the minimum length decodes
successfully to 22.80 (the value is printed, witnessed by the output
list), yet the Sensor State Store is returned unchanged, and the
subsequent `ble_get_temperature` read still reports observed = false
with the out-location untouched.  `notify_cb` never calls any store
write, although `struct ble_sensor_state` and its getters exist exactly
to publish these values to the HTTP exposition thread. -/
theorem C1_notification_is_printed_not_stored :
    notify_cb temp_lookup 42 [(0xE8 : Byte), (0x08 : Byte)] g_state_init
      = (g_state_init, [(SensorKind.temperature, 114 / 5)]) ∧
    ble_get_temperature
      (notify_cb temp_lookup 42 [(0xE8 : Byte), (0x08 : Byte)] g_state_init).1 0
      = (false, 0) := by
  have h : ((toInt16 (uint16_le (0xE8 : Byte) (0x08 : Byte)) : ℚ)) / 100
      = 114 / 5 := by
    have h2 : toInt16 (uint16_le (0xE8 : Byte) (0x08 : Byte)) = 2280 := by
      decide
    rw [h2]
    norm_num
  constructor
  · show ((g_state_init,
        [(SensorKind.temperature,
          (toInt16 (uint16_le (0xE8 : Byte) (0x08 : Byte)) : ℚ) / 100)]) :
        ble_sensor_state × List (SensorKind × ℚ)) = _
    rw [h]
  · rfl

/-- C2 — the claim fails on the code: `att_disconnect_cb` performs no
access to `g_state` at all, so a disconnect clears neither the
connectivity flag nor the observed-flags.  Starting from the reachable
state right after a successful `ble_client_start` (where
`connected = true`), the disconnect handler leaves the store bit-for-bit
unchanged and `ble_is_connected` still reports true afterwards. -/
theorem C2_disconnect_clears_nothing :
    (∀ s : SysState, (att_disconnect_cb s).store = s.store) ∧
    ble_is_connected sys_after_start.store = true ∧
    ble_is_connected (att_disconnect_cb sys_after_start).store = true :=
  ⟨fun _ => rfl, rfl, rfl⟩

/-- C3 counterexample — immediately after a successful
`ble_client_start`, before any discovery has completed (`ready_cb` has
not fired), the connectivity flag already reads true: it is set by the
transport-level connect path, not by discovery completion, so
`connected = (state == Ready)` fails. -/
theorem C3_connected_before_discovery :
    ble_is_connected sys_after_start.store = true ∧
    sys_after_start.discovery_complete = false := by
  constructor <;> rfl

/-- C3 amended — the connectivity flag is set to true by a successful
`ble_client_start` (transport connection established and client object
created), before GATT discovery runs; it is modified nowhere else: the
failure paths of `ble_client_start`, discovery completion (`ready_cb`),
the disconnect handler and the reconnect path all leave the store
unchanged. -/
theorem C3_connected_set_at_transport_connect :
    (∀ s : SysState, ((ble_client_start true true s).1).store.connected = true) ∧
    (∀ (s : SysState) (k : Bool), ((ble_client_start false k s).1).store = s.store) ∧
    (∀ s : SysState, ((ble_client_start true false s).1).store = s.store) ∧
    (∀ (s : SysState) (ok : Bool), (ready_cb ok s).store = s.store) ∧
    (∀ s : SysState, (att_disconnect_cb s).store = s.store) ∧
    (∀ (s : SysState) (c k : Bool), (reconnect_cb c k s).store = s.store) := by
  refine ⟨fun s => rfl, fun s k => rfl, fun s => rfl, ?_, fun s => rfl, ?_⟩
  · intro s ok
    cases ok <;> rfl
  · intro s c k
    cases c <;> cases k <;> rfl

/-- C4 counterexample — the reconnect scheduled by the transport
disconnect handler uses a 1000 ms delay, not the fixed 2000 ms delay the
claim asserts for every reconnect attempt. -/
theorem C4_disconnect_delay_is_1000 :
    (att_disconnect_cb init_sys).scheduled_reconnect_delays = [1000] ∧
    (1000 : Nat) ≠ 2000 := by
  constructor <;> decide

/-- C4 amended — reconnects scheduled after a failed connection attempt
(either failure path of `ble_client_start`, or a failed attempt inside
`reconnect_cb`) use a 2000 ms delay, while the reconnect scheduled by
the transport disconnect handler (`att_disconnect_cb`) uses a 1000 ms
delay. -/
theorem C4_retry_delays :
    (∀ (s : SysState) (k : Bool),
        ((ble_client_start false k s).1).scheduled_reconnect_delays
          = s.scheduled_reconnect_delays ++ [2000]) ∧
    (∀ s : SysState,
        ((ble_client_start true false s).1).scheduled_reconnect_delays
          = s.scheduled_reconnect_delays ++ [2000]) ∧
    (∀ (s : SysState) (k : Bool),
        (reconnect_cb false k s).scheduled_reconnect_delays
          = s.scheduled_reconnect_delays ++ [2000]) ∧
    (∀ s : SysState,
        (att_disconnect_cb s).scheduled_reconnect_delays
          = s.scheduled_reconnect_delays ++ [1000]) :=
  ⟨fun _ _ => rfl, fun _ => rfl, fun _ _ => rfl, fun _ => rfl⟩

/-- C5 — every temperature payload of ≥2 bytes decodes to the signed
little-endian 16-bit reading of its first two bytes divided by 100
(in particular `[0xE8, 0x08]` decodes to 22.80 = 114/5); every shorter
payload is rejected (`none`) and `notify_cb` leaves the store
unchanged on such a payload. -/
theorem C5_decode_temperature_correct :
    (∀ (b0 b1 : Byte) (rest : List Byte),
        decode_temperature (b0 :: b1 :: rest)
          = some ((int16_le_spec b0 b1 : ℚ) / 100)) ∧
    decode_temperature [(0xE8 : Byte), (0x08 : Byte)] = some (114 / 5) ∧
    (∀ v : List Byte, v.length < 2 → decode_temperature v = none) ∧
    (∀ (f : Nat → Option Nat) (h : Nat) (v : List Byte)
        (s : ble_sensor_state), v.length < 2 → (notify_cb f h v s).1 = s) := by
  have hex : decode_temperature [(0xE8 : Byte), (0x08 : Byte)]
      = some (114 / 5) := by
    have h2 : toInt16 (uint16_le (0xE8 : Byte) (0x08 : Byte)) = 2280 := by
      decide
    show some ((toInt16 (uint16_le (0xE8 : Byte) (0x08 : Byte)) : ℚ) / 100) = _
    rw [h2]
    norm_num
  refine ⟨?_, hex, ?_, ?_⟩
  · intro b0 b1 rest
    show some ((toInt16 (uint16_le b0 b1) : ℚ) / 100) = _
    rw [toInt16_uint16_le]
  · intro v hv
    match v with
    | [] => rfl
    | [_] => rfl
    | _ :: _ :: _ =>
      simp only [List.length_cons] at hv
      omega
  · intro f h v s _
    exact notify_cb_fst f h v s

/-- C5 witness — instantiation at concrete inputs: the decoder formula
at bytes `[0xE8, 0x08]`, the rejection of the one-byte payload
`[0xE8]`, and the no-mutation of the store on that short payload. -/
theorem C5_decode_temperature_correct_witness :
    decode_temperature [(0xE8 : Byte), (0x08 : Byte)]
      = some ((int16_le_spec (0xE8 : Byte) (0x08 : Byte) : ℚ) / 100) ∧
    decode_temperature [(0xE8 : Byte)] = none ∧
    (notify_cb temp_lookup 42 [(0xE8 : Byte)] g_state_init).1 = g_state_init :=
  ⟨C5_decode_temperature_correct.1 (0xE8 : Byte) (0x08 : Byte) [],
   C5_decode_temperature_correct.2.2.1 [(0xE8 : Byte)] (by decide),
   C5_decode_temperature_correct.2.2.2 temp_lookup 42 [(0xE8 : Byte)]
     g_state_init (by decide)⟩

/-- C6 counterexample — the claim's example is miscomputed: the bytes
`[0x40, 0x4E, 0x0F, 0x00]` are little-endian 1003072, so they decode to
10030.72 = 250768/25, not to 9900.00. -/
theorem C6_example_bytes_decode_to_10030_72 :
    decode_pressure [(0x40 : Byte), (0x4E : Byte), (0x0F : Byte), (0x00 : Byte)]
      = some (250768 / 25) ∧
    (250768 / 25 : ℚ) ≠ 9900 := by
  have h2 : uint32_le (0x40 : Byte) (0x4E : Byte) (0x0F : Byte) (0x00 : Byte)
      = 1003072 := by decide
  constructor
  · show some ((uint32_le (0x40 : Byte) (0x4E : Byte) (0x0F : Byte)
        (0x00 : Byte) : ℚ) / 100) = _
    rw [h2]
    norm_num
  · norm_num

/-- C6 amended — every pressure payload of ≥4 bytes decodes to the
unsigned little-endian 32-bit reading of its first four bytes divided by
100; the example bytes `[0x40, 0x4E, 0x0F, 0x00]` decode to 10030.72,
while 9900.00 corresponds to the bytes `[0x30, 0x1B, 0x0F, 0x00]`;
shorter payloads are rejected with no state mutation. -/
theorem C6_decode_pressure_correct :
    (∀ (b0 b1 b2 b3 : Byte) (rest : List Byte),
        decode_pressure (b0 :: b1 :: b2 :: b3 :: rest)
          = some ((uint32_le_spec b0 b1 b2 b3 : ℚ) / 100)) ∧
    decode_pressure [(0x30 : Byte), (0x1B : Byte), (0x0F : Byte), (0x00 : Byte)]
      = some 9900 ∧
    (∀ v : List Byte, v.length < 4 → decode_pressure v = none) ∧
    (∀ (f : Nat → Option Nat) (h : Nat) (v : List Byte)
        (s : ble_sensor_state), v.length < 4 → (notify_cb f h v s).1 = s) := by
  have hex : decode_pressure
      [(0x30 : Byte), (0x1B : Byte), (0x0F : Byte), (0x00 : Byte)]
        = some 9900 := by
    have h2 : uint32_le (0x30 : Byte) (0x1B : Byte) (0x0F : Byte) (0x00 : Byte)
        = 990000 := by decide
    show some ((uint32_le (0x30 : Byte) (0x1B : Byte) (0x0F : Byte)
        (0x00 : Byte) : ℚ) / 100) = _
    rw [h2]
    norm_num
  refine ⟨?_, hex, ?_, ?_⟩
  · intro b0 b1 b2 b3 rest
    show some ((uint32_le b0 b1 b2 b3 : ℚ) / 100) = _
    rw [uint32_le_eq_spec]
  · intro v hv
    match v with
    | [] => rfl
    | [_] => rfl
    | [_, _] => rfl
    | [_, _, _] => rfl
    | _ :: _ :: _ :: _ :: _ =>
      simp only [List.length_cons] at hv
      omega
  · intro f h v s _
    exact notify_cb_fst f h v s

/-- C6 witness — instantiation at concrete inputs: the decoder formula
at the bytes of 9900.00, the rejection of a three-byte payload, and the
no-mutation of the store on that short payload. -/
theorem C6_decode_pressure_correct_witness :
    decode_pressure [(0x30 : Byte), (0x1B : Byte), (0x0F : Byte), (0x00 : Byte)]
      = some ((uint32_le_spec (0x30 : Byte) (0x1B : Byte) (0x0F : Byte)
          (0x00 : Byte) : ℚ) / 100) ∧
    decode_pressure [(0x30 : Byte), (0x1B : Byte), (0x0F : Byte)] = none ∧
    (notify_cb temp_lookup 42 [(0x30 : Byte)] g_state_init).1 = g_state_init :=
  ⟨C6_decode_pressure_correct.1 (0x30 : Byte) (0x1B : Byte) (0x0F : Byte)
     (0x00 : Byte) [],
   C6_decode_pressure_correct.2.2.1
     [(0x30 : Byte), (0x1B : Byte), (0x0F : Byte)] (by decide),
   C6_decode_pressure_correct.2.2.2 temp_lookup 42 [(0x30 : Byte)]
     g_state_init (by decide)⟩

/-- C7 — every humidity payload of ≥2 bytes decodes to the unsigned
little-endian 16-bit reading of its first two bytes divided by 100
(in particular `[0x88, 0x13]` decodes to 50.00); every shorter payload
is rejected and `notify_cb` leaves the store unchanged on such a
payload. -/
theorem C7_decode_humidity_correct :
    (∀ (b0 b1 : Byte) (rest : List Byte),
        decode_humidity (b0 :: b1 :: rest)
          = some ((uint16_le_spec b0 b1 : ℚ) / 100)) ∧
    decode_humidity [(0x88 : Byte), (0x13 : Byte)] = some 50 ∧
    (∀ v : List Byte, v.length < 2 → decode_humidity v = none) ∧
    (∀ (f : Nat → Option Nat) (h : Nat) (v : List Byte)
        (s : ble_sensor_state), v.length < 2 → (notify_cb f h v s).1 = s) := by
  have hex : decode_humidity [(0x88 : Byte), (0x13 : Byte)] = some 50 := by
    have h2 : uint16_le (0x88 : Byte) (0x13 : Byte) = 5000 := by decide
    show some ((uint16_le (0x88 : Byte) (0x13 : Byte) : ℚ) / 100) = _
    rw [h2]
    norm_num
  refine ⟨fun b0 b1 rest => rfl, hex, ?_, ?_⟩
  · intro v hv
    match v with
    | [] => rfl
    | [_] => rfl
    | _ :: _ :: _ =>
      simp only [List.length_cons] at hv
      omega
  · intro f h v s _
    exact notify_cb_fst f h v s

/-- C7 witness — instantiation at concrete inputs: the decoder formula
at bytes `[0x88, 0x13]`, the rejection of the one-byte payload `[0x88]`,
and the no-mutation of the store on that short payload. -/
theorem C7_decode_humidity_correct_witness :
    decode_humidity [(0x88 : Byte), (0x13 : Byte)]
      = some ((uint16_le_spec (0x88 : Byte) (0x13 : Byte) : ℚ) / 100) ∧
    decode_humidity [(0x88 : Byte)] = none ∧
    (notify_cb temp_lookup 42 [(0x88 : Byte)] g_state_init).1 = g_state_init :=
  ⟨C7_decode_humidity_correct.1 (0x88 : Byte) (0x13 : Byte) [],
   C7_decode_humidity_correct.2.2.1 [(0x88 : Byte)] (by decide),
   C7_decode_humidity_correct.2.2.2 temp_lookup 42 [(0x88 : Byte)]
     g_state_init (by decide)⟩

/-- C8 — in every reachable state of the system, whenever
`ble_is_connected` reads false, all three observed-flags read false.
On this code the invariant holds in the strongest possible way: no
reactor event ever sets an observed-flag (see
`reachable_flags_false`). -/
theorem C8_disconnected_implies_unobserved (s : SysState)
    (hs : Reachable s) (_hc : ble_is_connected s.store = false) :
    s.store.has_temp = false ∧ s.store.has_press = false ∧
      s.store.has_humid = false :=
  reachable_flags_false hs

/-- C8 witness — instantiation at the initial state, which is reachable
and reports disconnected. -/
theorem C8_disconnected_implies_unobserved_witness :
    init_sys.store.has_temp = false ∧ init_sys.store.has_press = false ∧
      init_sys.store.has_humid = false :=
  C8_disconnected_implies_unobserved init_sys Reachable.init rfl

/-- C9 — reading is idempotent: calling a getter twice with no
intervening write returns the identical (observed, value) pair; the
second call's out-location is the first call's result. -/
theorem C9_read_idempotent (s : ble_sensor_state) (out : ℚ) :
    ble_get_temperature s (ble_get_temperature s out).2
      = ble_get_temperature s out ∧
    ble_get_pressure s (ble_get_pressure s out).2
      = ble_get_pressure s out ∧
    ble_get_humidity s (ble_get_humidity s out).2
      = ble_get_humidity s out := by
  refine ⟨?_, ?_, ?_⟩
  · cases h : s.has_temp <;> simp [ble_get_temperature, h]
  · cases h : s.has_press <;> simp [ble_get_pressure, h]
  · cases h : s.has_humid <;> simp [ble_get_humidity, h]

/-- C10 — frame property of the getters: when a kind's observed-flag is
false, the getter returns false and the caller's out-location is left
exactly as it was; the out-parameter is written only on a true
return. -/
theorem C10_getter_frame (s : ble_sensor_state) (out : ℚ) :
    (s.has_temp = false → ble_get_temperature s out = (false, out)) ∧
    (s.has_press = false → ble_get_pressure s out = (false, out)) ∧
    (s.has_humid = false → ble_get_humidity s out = (false, out)) := by
  refine ⟨fun h => ?_, fun h => ?_, fun h => ?_⟩ <;>
    simp [ble_get_temperature, ble_get_pressure, ble_get_humidity, h]

/-- C10 witness — instantiation at the initial store with out-location
holding 7: all three getters return `(false, 7)`. -/
theorem C10_getter_frame_witness :
    ble_get_temperature g_state_init 7 = (false, 7) ∧
    ble_get_pressure g_state_init 7 = (false, 7) ∧
    ble_get_humidity g_state_init 7 = (false, 7) :=
  ⟨(C10_getter_frame g_state_init 7).1 rfl,
   (C10_getter_frame g_state_init 7).2.1 rfl,
   (C10_getter_frame g_state_init 7).2.2 rfl⟩

end BleGatt
